import Mathlib

/-!
Shallow embedding of the `bcheidemann/interpreter` pipeline
(lexer -> recursive-descent parser -> tree-walking interpreter) and proofs
about it.  Machine `f32` payloads are modelled as exact rationals; `String`
payloads inside tokens are kept as character lists so that the byte-slicing
done by the parser (`string[1..len-1]`, always on ASCII quote boundaries)
becomes list dropping.  All mutable-struct traversals (scanner and parser
cursors, interpreter program counter) are modelled as recursion over the
remaining input, with an explicit fuel argument for the mutually recursive
descent of the parser and statement execution.
-/

namespace Interp

/-- Translated from src/lib/utils.rs: `is_digit`. -/
def is_digit (char : Char) : Bool :=
  '0' ≤ char && char ≤ '9'

/-- Translated from src/lib/utils.rs: `is_alpha`. -/
def is_alpha (char : Char) : Bool :=
  ('a' ≤ char && char ≤ 'z') || ('A' ≤ char && char ≤ 'Z') || char == '_'

/-- Translated from src/lib/utils.rs: `is_alpha_numeric`. -/
def is_alpha_numeric (char : Char) : Bool :=
  is_alpha char || is_digit char

/-- Translated from src/lib/scanner.rs: `TokenDirection`. -/
inductive TokenDirection where
  | left
  | right
deriving DecidableEq, Repr

/-- Translated from src/lib/scanner.rs: `Keyword`. -/
inductive Keyword where
  | And
  | Class
  | Else
  | False
  | For
  | Function
  | If
  | Nil
  | Or
  | Print
  | Return
  | Super
  | This
  | True
  | VariableDeclaration
  | While
deriving DecidableEq, Repr

/-- Translated from src/lib/scanner.rs: `Token`.  The string payload is the
raw source slice (quotes included), kept as a character list. -/
inductive Token where
  | paren (d : TokenDirection)
  | brace (d : TokenDirection)
  | comma
  | dot
  | minus
  | plus
  | slash
  | star
  | semiColon
  | bang
  | bangEquals
  | equals
  | equalsEquals
  | lessEqual
  | less
  | greater
  | greaterEqual
  | string (s : List Char)
  | number (n : ℚ)
  | identifier (s : String)
  | keyword (k : Keyword)
deriving DecidableEq, Repr

/-- Digits of a numeric lexeme read as a natural number. -/
def digitsToNat (cs : List Char) : Nat :=
  cs.foldl (fun n c => 10 * n + (c.toNat - '0'.toNat)) 0

/-- Models `str::parse::<f32>` on the scanner's numeric lexemes (a digit
followed by digits and dots): accepts `digits` or `digits '.' digits`
(the fractional digits may be empty, so a trailing dot is accepted, exactly
as Rust's float parser does), rejects a lexeme with a second dot.  The value
is exact rational arithmetic in place of `f32`. -/
def parseFloatLexeme (cs : List Char) : Option ℚ :=
  let intPart := cs.takeWhile is_digit
  match cs.dropWhile is_digit with
  | [] => some (digitsToNat intPart)
  | '.' :: frac =>
    if frac.all is_digit then
      some ((digitsToNat intPart : ℚ) + (digitsToNat frac : ℚ) / 10 ^ frac.length)
    else
      none
  | _ => none

/-- Maps a completed alphanumeric lexeme to a keyword or identifier token,
translated from the keyword match in src/lib/scanner.rs `scan_token`. -/
def keywordOrIdentifier (cs : List Char) : Token :=
  let s := cs.asString
  match s with
  | "and" => .keyword .And
  | "class" => .keyword .Class
  | "else" => .keyword .Else
  | "false" => .keyword .False
  | "for" => .keyword .For
  | "fun" => .keyword .Function
  | "if" => .keyword .If
  | "nil" => .keyword .Nil
  | "or" => .keyword .Or
  | "print" => .keyword .Print
  | "return" => .keyword .Return
  | "super" => .keyword .Super
  | "this" => .keyword .This
  | "true" => .keyword .True
  | "var" => .keyword .VariableDeclaration
  | "while" => .keyword .While
  | _ => .identifier s

/-- Predicate for characters the numeric-literal loop keeps consuming:
`Some('.') => {}` continues, any other char continues iff it is a digit
(src/lib/scanner.rs `scan_token`, number branch). -/
def numberChar (ch : Char) : Bool :=
  ch == '.' || is_digit ch

/-- Translated from src/lib/scanner.rs: `Scanner::scan_tokens`/`scan_token`.
The scanner struct's `start`/`current` cursor pair is modelled by recursing
over the remaining character list; `line` is threaded explicitly.  One call
of `scan_token` corresponds to one unfolding (each consumes at least one
character, so fuel `length + 1` never runs out).  Error strings are the
source's panic/`Err` messages. -/
def scanAux : Nat → List Char → Nat → Except String (List Token)
  | 0, _, _ => .error "scanner out of fuel"
  | _ + 1, [], _ => .ok []
  | fuel + 1, c :: rest, line =>
    match c with
    | ' ' | '\r' | '\t' => scanAux fuel rest line
    | '\n' => scanAux fuel rest (line + 1)
    | '(' => (Token.paren .left :: ·) <$> scanAux fuel rest line
    | ')' => (Token.paren .right :: ·) <$> scanAux fuel rest line
    | '{' => (Token.brace .left :: ·) <$> scanAux fuel rest line
    | '}' => (Token.brace .right :: ·) <$> scanAux fuel rest line
    | ',' => (Token.comma :: ·) <$> scanAux fuel rest line
    | '.' => (Token.dot :: ·) <$> scanAux fuel rest line
    | '-' => (Token.minus :: ·) <$> scanAux fuel rest line
    | '+' => (Token.plus :: ·) <$> scanAux fuel rest line
    | '*' => (Token.star :: ·) <$> scanAux fuel rest line
    | ';' => (Token.semiColon :: ·) <$> scanAux fuel rest line
    | '!' =>
      match rest with
      | '=' :: rest2 => (Token.bangEquals :: ·) <$> scanAux fuel rest2 line
      | _ => (Token.bang :: ·) <$> scanAux fuel rest line
    | '=' =>
      match rest with
      | '=' :: rest2 => (Token.equalsEquals :: ·) <$> scanAux fuel rest2 line
      | _ => (Token.equals :: ·) <$> scanAux fuel rest line
    | '<' =>
      match rest with
      | '=' :: rest2 => (Token.lessEqual :: ·) <$> scanAux fuel rest2 line
      | _ => (Token.less :: ·) <$> scanAux fuel rest line
    | '>' =>
      match rest with
      | '=' :: rest2 => (Token.greaterEqual :: ·) <$> scanAux fuel rest2 line
      | _ => (Token.greater :: ·) <$> scanAux fuel rest line
    | '/' =>
      match rest with
      | '/' :: rest2 =>
        scanAux fuel ((rest2.dropWhile (· != '\n')).drop 1) line
      | _ => (Token.slash :: ·) <$> scanAux fuel rest line
    | '"' =>
      let content := rest.takeWhile (· != '"')
      match rest.dropWhile (· != '"') with
      | [] => .error "Unterminated string"
      | _ :: rest2 =>
        (Token.string ('"' :: content ++ ['"']) :: ·) <$>
          scanAux fuel rest2 (line + content.count '\n')
    | other =>
      if is_digit other then
        let lexeme := other :: rest.takeWhile numberChar
        match parseFloatLexeme lexeme with
        | some q =>
          (Token.number q :: ·) <$> scanAux fuel (rest.dropWhile numberChar) line
        | none => .error "Failed to parse float"
      else if is_alpha other then
        let lexeme := other :: rest.takeWhile is_alpha_numeric
        (keywordOrIdentifier lexeme :: ·) <$>
          scanAux fuel (rest.dropWhile is_alpha_numeric) line
      else
        .error ("Unexpected character (" ++ String.singleton other ++ ") on line "
          ++ toString line)

/-- Translated from src/lib/scanner.rs: scanning a whole source string,
starting on line 1. -/
def scanTokens (source : String) : Except String (List Token) :=
  scanAux (source.toList.length + 1) source.toList 1

/-- Translated from src/lib/parser.rs: `Operator`. -/
inductive Operator where
  | bangEquals
  | equalsEquals
  | greater
  | greaterEqual
  | less
  | lessEqual
  | minus
  | plus
  | slash
  | star
  | bang
deriving DecidableEq, Repr

/-- Translated from src/lib/parser.rs: `LiteralValue`.  The `f32` payload of
`Number` is modelled as an exact rational. -/
inductive LiteralValue where
  | boolean (b : Bool)
  | string (s : String)
  | number (n : ℚ)
  | identifier (name : String)
  | nil
deriving DecidableEq, Repr

namespace LiteralValue

/-- Position of a variant in the Rust declaration order, the primary key of
the derived `PartialOrd` on `LiteralValue`. -/
def variantIdx : LiteralValue → Nat
  | boolean _ => 0
  | string _ => 1
  | number _ => 2
  | identifier _ => 3
  | nil => 4

/-- Models the derived `PartialOrd::lt` on `LiteralValue` (parser.rs line 39):
variant declaration order first, then payload order within equal variants
(`false < true` for booleans, code-point lexicographic for strings, numeric
for numbers). -/
def lt (a b : LiteralValue) : Bool :=
  match a, b with
  | boolean x, boolean y => !x && y
  | string x, string y => decide (x < y)
  | number x, number y => decide (x < y)
  | identifier x, identifier y => decide (x < y)
  | nil, nil => false
  | a, b => decide (variantIdx a < variantIdx b)

/-- Models the derived `PartialOrd::ge`: on this total order,
`partial_cmp(a, b) ∈ {Greater, Equal}` is `lt b a || a = b`. -/
def ge (a b : LiteralValue) : Bool :=
  lt b a || decide (a = b)

/-- Models Rust's `Display` for `bool` (used by `format!` stringification). -/
def boolToString (b : Bool) : String :=
  if b then "true" else "false"

/-- Models Rust's `Display` for `f32` on the rational stand-in.  Integral
values print without a fractional part; no claim inspects the rendering of a
non-integral number, so those fall back to the rational's own rendering. -/
def numberToString (q : ℚ) : String :=
  if q.den = 1 then toString q.num else toString q

/-- Translated from src/lib/parser.rs: `LiteralValue::to_string`. -/
def to_string : LiteralValue → String
  | boolean value => boolToString value
  | string value => value
  | number value => numberToString value
  | nil => "nil"
  | identifier name => name

/-- Models the derived `Debug` rendering used by expression statements. -/
def debugString : LiteralValue → String
  | boolean b => "Boolean(" ++ boolToString b ++ ")"
  | string s => "String(\"" ++ s ++ "\")"
  | number n => "Number(" ++ numberToString n ++ ")"
  | identifier name => "Identifier(\"" ++ name ++ "\")"
  | nil => "Nil"

/-- Translated from src/lib/parser.rs: `impl Add for LiteralValue`.  Panics
become `Except.error` with the source's messages. -/
def add (lhs rhs : LiteralValue) : Except String LiteralValue :=
  match lhs with
  | boolean lhs_value =>
    match rhs with
    | string rhs_value => .ok (string (boolToString lhs_value ++ rhs_value))
    | _ => .error "Boolean values can only be added with string values"
  | string lhs_value =>
    match rhs with
    | string rhs_value => .ok (string (lhs_value ++ rhs_value))
    | boolean rhs_value => .ok (string (lhs_value ++ boolToString rhs_value))
    | number rhs_value => .ok (string (lhs_value ++ numberToString rhs_value))
    | identifier _ => .error "Cannot add unresolved identifier to string"
    | nil => .ok (string (lhs_value ++ "nil"))
  | number lhs_value =>
    match rhs with
    | number rhs_value => .ok (number (lhs_value + rhs_value))
    | string rhs_value => .ok (string (numberToString lhs_value ++ rhs_value))
    | _ => .error "Cannot add values with different types"
  | nil =>
    match rhs with
    | string rhs_value => .ok (string ("nil" ++ rhs_value))
    | _ => .error "Nil values can only be added with string values"
  | identifier _ => .error "Cannot add unresolved identifier"

/-- Translated from src/lib/parser.rs: `impl Sub for LiteralValue`. -/
def sub (lhs rhs : LiteralValue) : Except String LiteralValue :=
  match lhs with
  | boolean _ => .error "Cannot subtract boolean values"
  | string _ => .error "Cannot subtract string values"
  | number lhs_value =>
    match rhs with
    | number rhs_value => .ok (number (lhs_value - rhs_value))
    | _ => .error "Cannot subtract values with different types"
  | nil => .error "Cannot subtract nil values"
  | identifier _ => .error "Cannot subtract unresolved identifier"

/-- Translated from src/lib/parser.rs: `impl Div for LiteralValue`.  Note one
model boundary: Rust divides `f32`s, so division by zero yields an infinity
or NaN there, while rational division by zero yields 0 here; no claim
exercises division by zero. -/
def div (lhs rhs : LiteralValue) : Except String LiteralValue :=
  match lhs with
  | boolean _ => .error "Cannot divide boolean values"
  | string _ => .error "Cannot divide string values"
  | number lhs_value =>
    match rhs with
    | number rhs_value => .ok (number (lhs_value / rhs_value))
    | _ => .error "Cannot divide values with different types"
  | nil => .error "Cannot divide nil values"
  | identifier _ => .error "Cannot divide unresolved identifier"

/-- Models Rust's `f32 as usize` cast applied to the repeat count in
`impl Mul` (saturating truncation toward zero: non-positive values give 0,
positive values give their floor). -/
def usizeOfNumber (q : ℚ) : Nat :=
  if q ≤ 0 then 0 else q.floor.toNat

/-- Models `str::repeat`. -/
def repeatString (s : String) : Nat → String
  | 0 => ""
  | n + 1 => s ++ repeatString s n

/-- Translated from src/lib/parser.rs: `impl Mul for LiteralValue`. -/
def mul (lhs rhs : LiteralValue) : Except String LiteralValue :=
  match lhs with
  | boolean _ => .error "Cannot multiply boolean values"
  | string lhs_value =>
    match rhs with
    | number rhs_value => .ok (string (repeatString lhs_value (usizeOfNumber rhs_value)))
    | _ => .error "Strings can only be multiplied by a number"
  | number lhs_value =>
    match rhs with
    | number rhs_value => .ok (number (lhs_value * rhs_value))
    | string rhs_value => .ok (string (repeatString rhs_value (usizeOfNumber lhs_value)))
    | _ => .error "Cannot multiply values with different types"
  | nil => .error "Cannot multiply nil values"
  | identifier _ => .error "Cannot multiply unresolved identifier"

/-- True exactly on the `Identifier` variant. -/
def isIdentifier : LiteralValue → Bool
  | identifier _ => true
  | _ => false

/-- True exactly on the `Number` variant. -/
def isNumber : LiteralValue → Bool
  | number _ => true
  | _ => false

/-- True exactly on the `String` variant. -/
def isString : LiteralValue → Bool
  | string _ => true
  | _ => false

end LiteralValue

/-- Translated from src/lib/parser.rs: `Expression`. -/
inductive Expression where
  | binary (left : Expression) (right : Expression) (operator : Operator)
  | grouping (e : Expression)
  | literal (v : LiteralValue)
  | unary (right : Expression) (operator : Operator)
deriving DecidableEq, Repr

mutual
/-- Translated from src/lib/parser.rs: `Declaration` (a `Block` payload is its
declaration list). -/
inductive Declaration where
  | variableAssignment (identifier : String) (value : Expression)
  | statement (s : Statement)
  | block (b : DeclarationList)

/-- Translated from src/lib/parser.rs: `Statement` (`If` is spelled
`ifStmt`). -/
inductive Statement where
  | print (e : Expression)
  | ifStmt (condition : Expression) (declaration : Declaration)
  | expression (e : Expression)

/-- A `Vec<Declaration>` (the payload of `Program` and `Block`). -/
inductive DeclarationList where
  | nil
  | cons (d : Declaration) (tl : DeclarationList)
end

namespace Parser

/-- Translated from src/lib/parser.rs: `Operator::from(&Token)` restricted to
the operator tokens it is ever called on. -/
def operatorOfToken : Token → Option Operator
  | .bangEquals => some .bangEquals
  | .equalsEquals => some .equalsEquals
  | .greater => some .greater
  | .greaterEqual => some .greaterEqual
  | .less => some .less
  | .lessEqual => some .lessEqual
  | .minus => some .minus
  | .plus => some .plus
  | .slash => some .slash
  | .star => some .star
  | .bang => some .bang
  | _ => none

/-- Translated from src/lib/parser.rs: `consume_semicolon`. -/
def consumeSemicolon : List Token → Except String (List Token)
  | .semiColon :: rest => .ok rest
  | _ => .error "Expected a semicolon"

/-- Translated from src/lib/parser.rs: `consume_brace`. -/
def consumeBrace (direction : TokenDirection) : List Token → Except String (List Token)
  | toks =>
    match direction, toks with
    | .left, .brace .left :: rest => .ok rest
    | .left, _ => .error "Expected left brace"
    | .right, .brace .right :: rest => .ok rest
    | .right, _ => .error "Expected right brace"

/-! Translated from src/lib/parser.rs: the recursive-descent entry points
`declaration`, `block`, `variable_assignment`, `statement`, `print`,
`if_statement`, `expression_statement`, and the precedence-climbing chain
`expression`/`equality`/`comparison`/`term`/`factor`/`unary`/`primary`.
The parser struct's `current` cursor is modelled by passing the remaining
token list; the `while` loops of the precedence levels become the `...Loop`
functions.  Panics become `Except.error`.  The `fuel` argument bounds the
recursion depth only; every theorem below either supplies ample fuel for a
concrete input or holds for every successor fuel value. -/
mutual

def declaration : Nat → List Token → Except String (Declaration × List Token)
  | 0, _ => .error "parser out of fuel"
  | fuel + 1, toks =>
    match toks with
    | .brace .left :: _ => do
      let (b, rest) ← block fuel toks
      .ok (.block b, rest)
    | .identifier _ :: _ => variableAssignment fuel toks
    | _ => statementDeclaration fuel toks

def block : Nat → List Token → Except String (DeclarationList × List Token)
  | 0, _ => .error "parser out of fuel"
  | fuel + 1, toks => do
    let rest ← consumeBrace .left toks
    let (ds, rest2) ← blockDeclarations fuel rest
    let rest3 ← consumeBrace .right rest2
    .ok (ds, rest3)

def blockDeclarations : Nat → List Token → Except String (DeclarationList × List Token)
  | 0, _ => .error "parser out of fuel"
  | fuel + 1, toks =>
    match toks with
    | .brace .right :: _ => .ok (.nil, toks)
    | _ => do
      let (d, rest) ← declaration fuel toks
      let (ds, rest2) ← blockDeclarations fuel rest
      .ok (.cons d ds, rest2)

def variableAssignment : Nat → List Token → Except String (Declaration × List Token)
  | 0, _ => .error "parser out of fuel"
  | fuel + 1, toks =>
    match toks with
    | .identifier id :: .equals :: rest => do
      let (value, rest2) ← expression fuel rest
      let rest3 ← consumeSemicolon rest2
      .ok (.variableAssignment id value, rest3)
    | _ => statementDeclaration fuel toks

def statementDeclaration : Nat → List Token → Except String (Declaration × List Token)
  | 0, _ => .error "parser out of fuel"
  | fuel + 1, toks => do
    let (s, rest) ← statement fuel toks
    .ok (.statement s, rest)

def statement : Nat → List Token → Except String (Statement × List Token)
  | 0, _ => .error "parser out of fuel"
  | fuel + 1, toks =>
    match toks with
    | .keyword .Print :: _ => printStatement fuel toks
    | .keyword .If :: _ => ifStatement fuel toks
    | _ => expressionStatement fuel toks

def printStatement : Nat → List Token → Except String (Statement × List Token)
  | 0, _ => .error "parser out of fuel"
  | fuel + 1, toks => do
    let (e, rest) ← expression fuel (toks.drop 1)
    let rest2 ← consumeSemicolon rest
    .ok (.print e, rest2)

def ifStatement : Nat → List Token → Except String (Statement × List Token)
  | 0, _ => .error "parser out of fuel"
  | fuel + 1, toks => do
    let (condition, rest) ← expression fuel (toks.drop 1)
    let (d, rest2) ← declaration fuel rest
    .ok (.ifStmt condition d, rest2)

def expressionStatement : Nat → List Token → Except String (Statement × List Token)
  | 0, _ => .error "parser out of fuel"
  | fuel + 1, toks => do
    let (e, rest) ← expression fuel toks
    let rest2 ← consumeSemicolon rest
    .ok (.expression e, rest2)

def expression : Nat → List Token → Except String (Expression × List Token)
  | 0, _ => .error "parser out of fuel"
  | fuel + 1, toks => equality fuel toks

def equality : Nat → List Token → Except String (Expression × List Token)
  | 0, _ => .error "parser out of fuel"
  | fuel + 1, toks => do
    let (e, rest) ← comparison fuel toks
    equalityLoop fuel e rest

def equalityLoop : Nat → Expression → List Token → Except String (Expression × List Token)
  | 0, _, _ => .error "parser out of fuel"
  | fuel + 1, e, toks =>
    match toks with
    | .bangEquals :: rest => do
      let (right, rest2) ← comparison fuel rest
      equalityLoop fuel (.binary e right .bangEquals) rest2
    | .equalsEquals :: rest => do
      let (right, rest2) ← comparison fuel rest
      equalityLoop fuel (.binary e right .equalsEquals) rest2
    | _ => .ok (e, toks)

def comparison : Nat → List Token → Except String (Expression × List Token)
  | 0, _ => .error "parser out of fuel"
  | fuel + 1, toks => do
    let (e, rest) ← term fuel toks
    comparisonLoop fuel e rest

def comparisonLoop : Nat → Expression → List Token → Except String (Expression × List Token)
  | 0, _, _ => .error "parser out of fuel"
  | fuel + 1, e, toks =>
    match toks with
    | .greater :: rest => do
      let (right, rest2) ← term fuel rest
      comparisonLoop fuel (.binary e right .greater) rest2
    | .greaterEqual :: rest => do
      let (right, rest2) ← term fuel rest
      comparisonLoop fuel (.binary e right .greaterEqual) rest2
    | .less :: rest => do
      let (right, rest2) ← term fuel rest
      comparisonLoop fuel (.binary e right .less) rest2
    | .lessEqual :: rest => do
      let (right, rest2) ← term fuel rest
      comparisonLoop fuel (.binary e right .lessEqual) rest2
    | _ => .ok (e, toks)

def term : Nat → List Token → Except String (Expression × List Token)
  | 0, _ => .error "parser out of fuel"
  | fuel + 1, toks => do
    let (e, rest) ← factor fuel toks
    termLoop fuel e rest

def termLoop : Nat → Expression → List Token → Except String (Expression × List Token)
  | 0, _, _ => .error "parser out of fuel"
  | fuel + 1, e, toks =>
    match toks with
    | .minus :: rest => do
      let (right, rest2) ← factor fuel rest
      termLoop fuel (.binary e right .minus) rest2
    | .plus :: rest => do
      let (right, rest2) ← factor fuel rest
      termLoop fuel (.binary e right .plus) rest2
    | _ => .ok (e, toks)

def factor : Nat → List Token → Except String (Expression × List Token)
  | 0, _ => .error "parser out of fuel"
  | fuel + 1, toks => do
    let (e, rest) ← unary fuel toks
    factorLoop fuel e rest

def factorLoop : Nat → Expression → List Token → Except String (Expression × List Token)
  | 0, _, _ => .error "parser out of fuel"
  | fuel + 1, e, toks =>
    match toks with
    | .slash :: rest => do
      let (right, rest2) ← unary fuel rest
      factorLoop fuel (.binary e right .slash) rest2
    | .star :: rest => do
      let (right, rest2) ← unary fuel rest
      factorLoop fuel (.binary e right .star) rest2
    | _ => .ok (e, toks)

def unary : Nat → List Token → Except String (Expression × List Token)
  | 0, _ => .error "parser out of fuel"
  | fuel + 1, toks =>
    match toks with
    | .bang :: rest => do
      let (right, rest2) ← unary fuel rest
      .ok (.unary right .bang, rest2)
    | .minus :: rest => do
      let (right, rest2) ← unary fuel rest
      .ok (.unary right .minus, rest2)
    | .plus :: rest => do
      let (right, rest2) ← unary fuel rest
      .ok (.unary right .plus, rest2)
    | _ => primary fuel toks

def primary : Nat → List Token → Except String (Expression × List Token)
  | 0, _ => .error "parser out of fuel"
  | fuel + 1, toks =>
    match toks with
    | .keyword .False :: rest => .ok (.literal (.boolean false), rest)
    | .keyword .True :: rest => .ok (.literal (.boolean true), rest)
    | .keyword .Nil :: rest => .ok (.literal .nil, rest)
    | .number n :: rest => .ok (.literal (.number n), rest)
    | .string s :: rest => .ok (.literal (.string ((s.drop 1).dropLast.asString)), rest)
    | .identifier id :: rest => .ok (.literal (.identifier id), rest)
    | .paren .left :: rest => do
      let (e, rest2) ← expression fuel rest
      match rest2 with
      | .paren .right :: rest3 => .ok (.grouping e, rest3)
      | _ => .error "Expected a closing paren after expression"
    | [] => .error "TODO: Handle EOF"
    | _ => .error "Syntax error??"

end

/-- Translated from src/lib/parser.rs: `Parser::parse`, looping `declaration`
until the token sequence is exhausted. -/
def parse : Nat → List Token → Except String DeclarationList
  | 0, _ => .error "parser out of fuel"
  | _ + 1, [] => .ok .nil
  | fuel + 1, toks => do
    let (d, rest) ← declaration fuel toks
    let ds ← parse fuel rest
    .ok (.cons d ds)

end Parser

/-- Translated from src/lib/environment.rs: `Environment`, a flat map from
variable name to value, modelled extensionally as its lookup function with
the `Nil` default of `resolve` folded in. -/
def Environment : Type := String → LiteralValue

namespace Environment

/-- Translated from src/lib/environment.rs: `Environment::new`, which
pre-seeds the binding `"VERSION" ↦ String(env!("CARGO_PKG_VERSION"))`.  The
compile-time version string is a parameter here. -/
def new (version : String) : Environment :=
  fun identifier => if identifier = "VERSION" then .string version else .nil

/-- Translated from src/lib/environment.rs: `Environment::resolve`
(`HashMap::get` with the `Nil` fallback). -/
def resolve (env : Environment) (identifier : String) : LiteralValue :=
  env identifier

/-- Translated from src/lib/environment.rs: `Environment::assign`
(`HashMap::insert`: inserts or overwrites). -/
def assign (env : Environment) (identifier : String) (value : LiteralValue) : Environment :=
  fun name => if name = identifier then value else env name

/-- A sequence of `assign` calls applied in order. -/
def applyAssigns (env : Environment) : List (String × LiteralValue) → Environment
  | [] => env
  | (name, value) :: rest => applyAssigns (env.assign name value) rest

end Environment

namespace Interpreter

/-- Translated from src/lib/interpreter.rs: the `Operator::Bang` arm of
`evaluate_unary_expression`, applied to the already-evaluated operand. -/
def bangValue : LiteralValue → Except String LiteralValue
  | .boolean value => .ok (.boolean (!value))
  | .string value => .ok (.boolean (decide (value.length = 0)))
  | .number value => .ok (.boolean (decide (value = 0)))
  | .nil => .ok (.boolean true)
  | .identifier _ => .error "Unexpected unresolved identifier"

/-- Translated from src/lib/interpreter.rs: the `Operator::Minus` arm of
`evaluate_unary_expression`, applied to the already-evaluated operand. -/
def negateValue : LiteralValue → Except String LiteralValue
  | .boolean _ => .error "Boolean values cannot be negated"
  | .string _ => .error "String values cannot be negated"
  | .number value => .ok (.number (-value))
  | .nil => .error "Nil values cannot be negated"
  | .identifier _ => .error "Unexpected unresolved identifier"

/-- Translated from src/lib/interpreter.rs: the operator dispatch of
`evaluate_binary_expression`, applied to the two already-evaluated operands.
Note the `LessEqual` arm: the source computes `left_value > right_value`
there (interpreter.rs line 109), identically to the `Greater` arm. -/
def evaluateBinaryValues (left_value right_value : LiteralValue) :
    Operator → Except String LiteralValue
  | .bangEquals => .ok (.boolean (!decide (left_value = right_value)))
  | .equalsEquals => .ok (.boolean (decide (left_value = right_value)))
  | .greater => .ok (.boolean (LiteralValue.lt right_value left_value))
  | .greaterEqual => .ok (.boolean (LiteralValue.ge left_value right_value))
  | .less => .ok (.boolean (LiteralValue.lt left_value right_value))
  | .lessEqual => .ok (.boolean (LiteralValue.lt right_value left_value))
  | .minus => LiteralValue.sub left_value right_value
  | .plus => LiteralValue.add left_value right_value
  | .slash => LiteralValue.div left_value right_value
  | .star => LiteralValue.mul left_value right_value
  | .bang => .error "Invalid binary operator"

/-- Translated from src/lib/interpreter.rs: `evaluate_expression` (with
`evaluate_binary_expression` and `evaluate_unary_expression` folded in as
their operand-evaluation order prescribes: both operands of a binary
expression are evaluated left-to-right before the operator is applied, and
an invalid unary operator is an error before its operand is evaluated). -/
def evaluateExpression (env : Environment) : Expression → Except String LiteralValue
  | .binary left right operator => do
    let left_value ← evaluateExpression env left
    let right_value ← evaluateExpression env right
    evaluateBinaryValues left_value right_value operator
  | .grouping e => evaluateExpression env e
  | .literal (.identifier id) => .ok (env.resolve id)
  | .literal v => .ok v
  | .unary right operator =>
    match operator with
    | .minus => evaluateExpression env right >>= negateValue
    | .plus => evaluateExpression env right
    | .bang => evaluateExpression env right >>= bangValue
    | _ => .error "Invalid unary operator"

/-- Modelled from the spec: truthiness of an `If` condition (the interpreter
snapshot under src/ predates the `If` statement, so this rule is not in
src/lib/interpreter.rs): Boolean as-is; String true iff non-empty; Number
true iff non-zero; Nil always false; an unresolved Identifier is a fatal
internal error. -/
def truthy : LiteralValue → Except String Bool
  | .boolean value => .ok value
  | .string value => .ok (!decide (value = ""))
  | .number value => .ok (!decide (value = 0))
  | .nil => .ok false
  | .identifier _ => .error "Unexpected unresolved identifier"

mutual

/-- Translated from src/lib/interpreter.rs (`evaluate_declaration`,
`evaluate_statement`, `print`, `evaluate_expression_statement`), except for
the two arms the src interpreter snapshot lacks, which are modelled from the
spec: `Block` executes its declarations in order against the same single
environment, and `If` evaluates its condition and executes its body exactly
once when the condition is truthy.  Execution returns the updated
environment together with the lines written to the console. -/
def execDeclaration : Nat → Environment → Declaration → Except String (Environment × List String)
  | 0, _, _ => .error "interpreter out of fuel"
  | fuel + 1, env, d =>
    match d with
    | .variableAssignment identifier value => do
      let v ← evaluateExpression env value
      .ok (env.assign identifier v, [])
    | .statement s => execStatement fuel env s
    | .block ds => execDeclarationList fuel env ds

/-- Statement execution; see `execDeclaration`. -/
def execStatement : Nat → Environment → Statement → Except String (Environment × List String)
  | 0, _, _ => .error "interpreter out of fuel"
  | fuel + 1, env, s =>
    match s with
    | .print e => do
      let result ← evaluateExpression env e
      .ok (env, [result.to_string])
    | .ifStmt condition declaration => do
      let c ← evaluateExpression env condition
      let b ← truthy c
      if b then execDeclaration fuel env declaration else .ok (env, [])
    | .expression e => do
      let result ← evaluateExpression env e
      .ok (env, [result.debugString])

/-- Execution of a declaration sequence (the interpreter's `run` loop over a
`Program`, and the body of a `Block`); see `execDeclaration`. -/
def execDeclarationList : Nat → Environment → DeclarationList →
    Except String (Environment × List String)
  | 0, _, _ => .error "interpreter out of fuel"
  | fuel + 1, env, ds =>
    match ds with
    | .nil => .ok (env, [])
    | .cons d tl => do
      let (env2, out) ← execDeclaration fuel env d
      let (env3, out2) ← execDeclarationList fuel env2 tl
      .ok (env3, out ++ out2)

end

end Interpreter

/-- The whole pipeline on one source string: scan, parse, then execute
against a fresh `Environment.new version`, giving the final environment and
the console output. -/
def runSource (version : String) (fuel : Nat) (source : String) :
    Except String (Environment × List String) :=
  do
    let toks ← scanTokens source
    let prog ← Parser.parse fuel toks
    Interpreter.execDeclarationList fuel (Environment.new version) prog

/-- Console output of `runSource`. -/
def runOutputs (version : String) (fuel : Nat) (source : String) :
    Except String (List String) :=
  (runSource version fuel source).map Prod.snd

/-- Scan and parse one expression (the test helper `parse_expr_from_tokens`),
then evaluate it against a fresh environment. -/
def evaluateSource (version : String) (fuel : Nat) (source : String) :
    Except String LiteralValue :=
  do
    let toks ← scanTokens source
    let (e, _) ← Parser.expression fuel toks
    Interpreter.evaluateExpression (Environment.new version) e

/-! Helper lemmas shared by the claim theorems below. -/

theorem bind_ok_eq {α β : Type} (a : α) (f : α → Except String β) :
    (Except.ok a >>= f) = f a := rfl

theorem bind_error_eq {α β : Type} (e : String) (f : α → Except String β) :
    ((Except.error e : Except String α) >>= f) = .error e := rfl

theorem string_length_eq_zero_iff (s : String) : s.length = 0 ↔ s = "" := by
  constructor
  · intro h
    cases s with
    | mk data =>
      cases data with
      | nil => rfl
      | cons a l => simp [String.length] at h
  · intro h
    subst h
    rfl

theorem resolve_applyAssigns_not_mem (env : Environment)
    (assigns : List (String × LiteralValue)) (name : String)
    (h : name ∉ assigns.map Prod.fst) :
    (env.applyAssigns assigns).resolve name = env.resolve name := by
  induction assigns generalizing env with
  | nil => rfl
  | cons hd tl ih =>
    simp only [List.map_cons, List.mem_cons, not_or] at h
    obtain ⟨h1, h2⟩ := h
    show ((env.assign hd.1 hd.2).applyAssigns tl).resolve name = _
    rw [ih _ h2]
    simp [Environment.assign, Environment.resolve, h1]

theorem mem_digit_chars_of_is_digit (c : Char) (h : is_digit c = true) :
    c ∈ ['0', '1', '2', '3', '4', '5', '6', '7', '8', '9'] := by
  simp only [is_digit, Bool.and_eq_true, decide_eq_true_eq] at h
  obtain ⟨h1, h2⟩ := h
  rw [Char.le_def] at h1 h2
  have h1' : 48 ≤ c.toNat := h1
  have h2' : c.toNat ≤ 57 := h2
  interval_cases hh : c.toNat <;>
    · have hc : c = _ := (Char.ofNat_toNat c).symm
      rw [hh] at hc
      subst hc
      decide

/-! The claim theorems. -/

/-- Claim C1: the claim says that on Number operands `<=` yields
`Boolean(true)` iff the left value is less than or equal to the right one,
agreeing with the logical negation of `>`.  The code is the slip here
(interpreter.rs line 109 evaluates `LessEqual` as `left_value > right_value`,
duplicating the `Greater` arm): on the failing input `1 <= 2` the code
returns `Boolean(false)` although `1 ≤ 2`, and in general the `LessEqual`
arm is identical to the `Greater` arm. -/
theorem C1_lessEqual_computes_greater :
    Interpreter.evaluateBinaryValues (.number 1) (.number 2) .lessEqual =
      .ok (.boolean false) ∧
    (1 : ℚ) ≤ 2 ∧
    evaluateSource "0.1.0" 100 "1<=2" = .ok (.boolean false) ∧
    ∀ a b : LiteralValue,
      Interpreter.evaluateBinaryValues a b .lessEqual =
        Interpreter.evaluateBinaryValues a b .greater := by
  refine ⟨?_, by norm_num, by with_unfolding_all rfl, fun a b => rfl⟩
  with_unfolding_all rfl

/-- Claim C9: division binds tighter than addition.  Scanning `1+2/4` yields
the expected token sequence, the parser groups it as `1+(2/4)`, and
evaluation yields `Number(1.5)` (`3/2` as an exact rational). -/
theorem C9_division_binds_tighter :
    scanTokens "1+2/4" = .ok [.number 1, .plus, .number 2, .slash, .number 4] ∧
    Parser.expression 100 [.number 1, .plus, .number 2, .slash, .number 4] =
      .ok (.binary (.literal (.number 1))
        (.binary (.literal (.number 2)) (.literal (.number 4)) .slash) .plus, []) ∧
    evaluateSource "0.1.0" 100 "1+2/4" = .ok (.number (3 / 2)) := by
  refine ⟨by with_unfolding_all rfl, by with_unfolding_all rfl, ?_⟩
  with_unfolding_all rfl

/-- Claim C10: a freshly constructed Environment already binds `"VERSION"` to
a String (the crate version), and resolves every other name to `Nil`. -/
theorem C10_new_environment_preseeds_version :
    (∀ version : String,
      (Environment.new version).resolve "VERSION" = .string version) ∧
    (∀ version name : String, name ≠ "VERSION" →
      (Environment.new version).resolve name = .nil) := by
  constructor
  · intro version
    rfl
  · intro version name h
    simp [Environment.new, Environment.resolve, h]

/-- Witness for C10 at the concrete version `"0.1.0"` and name `"x"`. -/
theorem C10_witness :
    (Environment.new "0.1.0").resolve "VERSION" = .string "0.1.0" ∧
    (Environment.new "0.1.0").resolve "x" = .nil :=
  ⟨C10_new_environment_preseeds_version.1 "0.1.0",
   C10_new_environment_preseeds_version.2 "0.1.0" "x" (by decide)⟩

/-- Claim C5 counterexample: `"VERSION"` is a name that was never assigned,
yet resolving it on a fresh environment yields a String, not `Nil`
(environment.rs pre-seeds it in `Environment::new`), refuting the claim's
clause that resolve of any never-assigned name returns `Nil`. -/
theorem C5_counterexample :
    (Environment.new "0.1.0").resolve "VERSION" = .string "0.1.0" ∧
    LiteralValue.string "0.1.0" ≠ .nil := by
  exact ⟨rfl, by decide⟩

/-- Claim C5 (amended): running `x = 5;` then evaluating the expression `x`
resolves to `Number(5)`; `resolve(name)` after `assign(name, v)` returns `v`
over any prior environment state (insert or overwrite, no declaration
needed); and resolve of any name never assigned — other than the pre-seeded
`"VERSION"` — returns `Nil` (and `resolve` is total, so it never fails). -/
theorem C5_assignment_round_trip :
    (∀ version : String,
      ((runSource version 100 "x = 5;") >>= fun p =>
        Interpreter.evaluateExpression p.1 (.literal (.identifier "x"))) =
        .ok (.number 5)) ∧
    (∀ (env : Environment) (name : String) (v : LiteralValue),
      (env.assign name v).resolve name = v) ∧
    (∀ (version : String) (assigns : List (String × LiteralValue)) (name : String),
      name ∉ assigns.map Prod.fst → name ≠ "VERSION" →
      ((Environment.new version).applyAssigns assigns).resolve name = .nil) := by
  refine ⟨fun _ => rfl, ?_, ?_⟩
  · intro env name v
    simp [Environment.assign, Environment.resolve]
  · intro version assigns name hmem hver
    rw [resolve_applyAssigns_not_mem _ _ _ hmem]
    simp [Environment.new, Environment.resolve, hver]

/-- Witness for C5 at version `"0.1.0"`, the assign list `[("x", 5)]` and the
unassigned name `"y"`. -/
theorem C5_witness :
    ((runSource "0.1.0" 100 "x = 5;") >>= fun p =>
      Interpreter.evaluateExpression p.1 (.literal (.identifier "x"))) =
      .ok (.number 5) ∧
    ((Environment.new "0.1.0").assign "y" (.number 7)).resolve "y" = .number 7 ∧
    ((Environment.new "0.1.0").applyAssigns [("x", .number 5)]).resolve "y" = .nil :=
  ⟨C5_assignment_round_trip.1 "0.1.0",
   C5_assignment_round_trip.2.1 (Environment.new "0.1.0") "y" (.number 7),
   C5_assignment_round_trip.2.2 "0.1.0" [("x", .number 5)] "y" (by decide) (by decide)⟩

/-- Claim C6: unary `!` on every runtime value (the four non-transient
variants; an `Identifier` is never a valid runtime value after evaluation)
yields a Boolean and never fails, with `true ↦ false`, `false ↦ true`,
String true iff empty, Number true iff exactly zero, `Nil ↦ true`; and
`evaluate_unary_expression` with operator `Bang` is exactly the evaluation
of the operand followed by this table. -/
theorem C6_unary_bang_table :
    (∀ v : LiteralValue, v.isIdentifier = false →
      ∃ b : Bool, Interpreter.bangValue v = .ok (.boolean b)) ∧
    (∀ b : Bool, Interpreter.bangValue (.boolean b) = .ok (.boolean (!b))) ∧
    (∀ s : String, Interpreter.bangValue (.string s) = .ok (.boolean (decide (s = "")))) ∧
    (∀ n : ℚ, Interpreter.bangValue (.number n) = .ok (.boolean (decide (n = 0)))) ∧
    Interpreter.bangValue .nil = .ok (.boolean true) ∧
    (∀ (env : Environment) (e : Expression),
      Interpreter.evaluateExpression env (.unary e .bang) =
        Interpreter.evaluateExpression env e >>= Interpreter.bangValue) := by
  refine ⟨?_, fun b => rfl, ?_, fun n => rfl, rfl, fun env e => rfl⟩
  · intro v hv
    cases v with
    | boolean b => exact ⟨!b, rfl⟩
    | string s => exact ⟨decide (s.length = 0), rfl⟩
    | number n => exact ⟨decide (n = 0), rfl⟩
    | nil => exact ⟨true, rfl⟩
    | identifier name => simp [LiteralValue.isIdentifier] at hv
  · intro s
    simp [Interpreter.bangValue, string_length_eq_zero_iff]

/-- Witness for C6 at the concrete value `Nil`. -/
theorem C6_witness :
    LiteralValue.nil.isIdentifier = false ∧
    ∃ b : Bool, Interpreter.bangValue .nil = .ok (.boolean b) :=
  ⟨rfl, C6_unary_bang_table.1 .nil rfl⟩

/-- Claim C7: multiplying a String by a Number in either operand order
repeats the string, the repeat count is the floor of the number when it is
positive, a non-positive repeat count yields the empty string, and the
concrete cases `"Hello "*3`, `"Hello "*-3` and `3*"Hello "` evaluate through
the whole pipeline to the expected strings. -/
theorem C7_string_times_number :
    (∀ (s : String) (q : ℚ), LiteralValue.mul (.string s) (.number q) =
      .ok (.string (LiteralValue.repeatString s (LiteralValue.usizeOfNumber q)))) ∧
    (∀ (s : String) (q : ℚ), LiteralValue.mul (.number q) (.string s) =
      .ok (.string (LiteralValue.repeatString s (LiteralValue.usizeOfNumber q)))) ∧
    (∀ q : ℚ, 0 < q → (LiteralValue.usizeOfNumber q : ℤ) = ⌊q⌋) ∧
    (∀ (s : String) (q : ℚ), q ≤ 0 →
      LiteralValue.repeatString s (LiteralValue.usizeOfNumber q) = "") ∧
    evaluateSource "0.1.0" 100 "\"Hello \"*3" = .ok (.string "Hello Hello Hello ") ∧
    evaluateSource "0.1.0" 100 "\"Hello \"*-3" = .ok (.string "") ∧
    evaluateSource "0.1.0" 100 "3*\"Hello \"" = .ok (.string "Hello Hello Hello ") := by
  refine ⟨fun s q => rfl, fun s q => rfl, ?_, ?_, ?_, ?_, ?_⟩
  · intro q hq
    unfold LiteralValue.usizeOfNumber
    rw [if_neg (not_le.mpr hq)]
    exact Int.toNat_of_nonneg (Int.floor_nonneg.mpr hq.le)
  · intro s q hq
    unfold LiteralValue.usizeOfNumber
    rw [if_pos hq]
    rfl
  · with_unfolding_all rfl
  · with_unfolding_all rfl
  · with_unfolding_all rfl

/-- Witness for C7 at the concrete repeat counts `3` and `-1`. -/
theorem C7_witness :
    (LiteralValue.usizeOfNumber 3 : ℤ) = ⌊(3 : ℚ)⌋ ∧
    LiteralValue.repeatString "ab" (LiteralValue.usizeOfNumber (-1)) = "" :=
  ⟨C7_string_times_number.2.2.1 3 (by norm_num),
   C7_string_times_number.2.2.2.1 "ab" (-1) (by norm_num)⟩

/-- The operand pairings the claim (and the spec's table) lists as valid for
binary `+`: Number+Number, String+(String|Number|Boolean|Nil),
Boolean+String, Nil+String (claim-side definition, to be compared with
`LiteralValue.add`, the definition translated from the source). -/
def addValidPairingSpec : LiteralValue → LiteralValue → Bool
  | .number _, .number _ => true
  | .string _, .string _ => true
  | .string _, .number _ => true
  | .string _, .boolean _ => true
  | .string _, .nil => true
  | .boolean _, .string _ => true
  | .nil, .string _ => true
  | _, _ => false

/-- The pairing list amended with Number+String, which the source's `Add`
implementation also accepts (parser.rs lines 101 to 103). -/
def addValidPairingAmended (a b : LiteralValue) : Bool :=
  addValidPairingSpec a b ||
    match a, b with
    | .number _, .string _ => true
    | _, _ => false

/-- Claim C3 counterexample: the pairing Number+String is outside the
claim's list, yet the source's `+` succeeds on it (stringifying the number),
refuting the claim's clause that every pairing other than the listed ones
fails. -/
theorem C3_counterexample :
    addValidPairingSpec (.number 1) (.string "a") = false ∧
    LiteralValue.add (.number 1) (.string "a") = .ok (.string "1a") := by
  exact ⟨rfl, by with_unfolding_all rfl⟩

/-- Claim C3 (amended): over evaluated (non-Identifier) operand values,
binary `+` succeeds exactly on the pairings Number+(Number|String),
String+(String|Number|Boolean|Nil), Boolean+String and Nil+String, producing
a Number or a String; every other pairing is a fatal type error. -/
theorem C3_plus_pairings :
    ∀ a b : LiteralValue, a.isIdentifier = false → b.isIdentifier = false →
      (addValidPairingAmended a b = true →
        ∃ v, LiteralValue.add a b = .ok v ∧ (v.isNumber || v.isString) = true) ∧
      (addValidPairingAmended a b = false →
        ∃ msg, LiteralValue.add a b = .error msg) := by
  intro a b ha hb
  constructor
  · intro hvalid
    cases a <;> cases b <;>
      simp_all [addValidPairingAmended, addValidPairingSpec, LiteralValue.add,
        LiteralValue.isIdentifier, LiteralValue.isNumber, LiteralValue.isString]
  · intro hinvalid
    cases a <;> cases b <;>
      simp_all [addValidPairingAmended, addValidPairingSpec, LiteralValue.add,
        LiteralValue.isIdentifier]

/-- Witness for C3 at the valid pairing Number+Number and the invalid
pairing Number+Boolean. -/
theorem C3_witness :
    (∃ v, LiteralValue.add (.number 1) (.number 2) = .ok v ∧
      (v.isNumber || v.isString) = true) ∧
    (∃ msg, LiteralValue.add (.number 1) (.boolean true) = .error msg) :=
  ⟨(C3_plus_pairings (.number 1) (.number 2) rfl rfl).1 rfl,
   (C3_plus_pairings (.number 1) (.boolean true) rfl rfl).2 rfl⟩

/-- Claim C2: executing an `If` statement evaluates the condition (a
condition error is the statement's error) and executes the body exactly once
iff the condition value is truthy, where truthiness is Boolean as-is, String
true iff non-empty, Number true iff non-zero, and Nil never; concretely,
running `if 0 { print "a"; }` and `if "" { print "a"; }` prints nothing
while `if "x" { print "a"; }` prints `a`.  (`If` execution and truthiness
are modelled from the spec, as the interpreter snapshot under src/ predates
the `If` statement; the concrete runs exercise the full scanner and parser
from the source.) -/
theorem C2_if_truthiness :
    (∀ (env : Environment) (c : Expression) (d : Declaration) (msg : String) (fuel : Nat),
      Interpreter.evaluateExpression env c = .error msg →
      Interpreter.execStatement (fuel + 1) env (.ifStmt c d) = .error msg) ∧
    (∀ (env : Environment) (c : Expression) (d : Declaration) (v : LiteralValue) (fuel : Nat),
      Interpreter.evaluateExpression env c = .ok v → Interpreter.truthy v = .ok true →
      Interpreter.execStatement (fuel + 1) env (.ifStmt c d) =
        Interpreter.execDeclaration fuel env d) ∧
    (∀ (env : Environment) (c : Expression) (d : Declaration) (v : LiteralValue) (fuel : Nat),
      Interpreter.evaluateExpression env c = .ok v → Interpreter.truthy v = .ok false →
      Interpreter.execStatement (fuel + 1) env (.ifStmt c d) = .ok (env, [])) ∧
    (∀ b : Bool, Interpreter.truthy (.boolean b) = .ok b) ∧
    (∀ s : String, Interpreter.truthy (.string s) = .ok (!decide (s = ""))) ∧
    (∀ n : ℚ, Interpreter.truthy (.number n) = .ok (!decide (n = 0))) ∧
    Interpreter.truthy .nil = .ok false ∧
    (∀ version : String,
      runOutputs version 100 "if 0 \x7b print \"a\"; \x7d" = .ok []) ∧
    (∀ version : String,
      runOutputs version 100 "if \"\" \x7b print \"a\"; \x7d" = .ok []) ∧
    (∀ version : String,
      runOutputs version 100 "if \"x\" \x7b print \"a\"; \x7d" = .ok ["a"]) := by
  refine ⟨?_, ?_, ?_, fun b => rfl, fun s => rfl, fun n => rfl, rfl,
    fun _ => by with_unfolding_all rfl, fun _ => by with_unfolding_all rfl,
    fun _ => by with_unfolding_all rfl⟩
  · intro env c d msg fuel h
    simp [Interpreter.execStatement, h, bind_error_eq]
  · intro env c d v fuel h hb
    simp [Interpreter.execStatement, h, hb, bind_ok_eq]
  · intro env c d v fuel h hb
    simp [Interpreter.execStatement, h, hb, bind_ok_eq]

/-- Witness for C2: the truthy condition `1` makes the `If` execute its body
(a print declaration), and the error propagation fires on an invalid binary
operand pair. -/
theorem C2_witness :
    Interpreter.execStatement 6 (Environment.new "0.1.0")
      (.ifStmt (.literal (.number 1)) (.statement (.print (.literal .nil)))) =
      Interpreter.execDeclaration 5 (Environment.new "0.1.0")
        (.statement (.print (.literal .nil))) ∧
    Interpreter.execStatement 6 (Environment.new "0.1.0")
      (.ifStmt (.literal (.number 0)) (.statement (.print (.literal .nil)))) =
      .ok (Environment.new "0.1.0", []) :=
  ⟨C2_if_truthiness.2.1 (Environment.new "0.1.0") (.literal (.number 1))
      (.statement (.print (.literal .nil))) (.number 1) 5 rfl (by with_unfolding_all rfl),
   C2_if_truthiness.2.2.1 (Environment.new "0.1.0") (.literal (.number 0))
      (.statement (.print (.literal .nil))) (.number 0) 5 rfl (by with_unfolding_all rfl)⟩

/-- Claim C4 counterexample: the claim says a trailing `.` not followed by a
digit is not consumed as part of the number token, and that the consumed run
contains at most one embedded dot.  Scanning `"123."` yields the single
token `Number(123)` — the trailing dot was consumed into the number's
lexeme, not left over as a `Dot` token — and scanning `"1.2.3"` consumes
both dots into one lexeme and aborts with the float-parse panic. -/
theorem C4_counterexample :
    scanTokens "123." = .ok [.number 123] ∧
    [Token.number 123] ≠ [Token.number 123, Token.dot] ∧
    scanTokens "1.2.3" = .error "Failed to parse float" := by
  refine ⟨by with_unfolding_all rfl, by decide, by with_unfolding_all rfl⟩

/-- Claim C4 (amended): when scanning a numeric literal (a character `c` with
`is_digit c`), the lexer consumes `c` followed by the maximal run of
digit-or-`.` characters — dots are not limited to one, and a trailing `.` is
consumed into the lexeme — then parses the lexeme as a float, a fatal
`Failed to parse float` error when the lexeme is not a valid float literal
(for example, when it contains two dots).  The first conjunct states that
every consumed character of the run is a digit or a dot, the second that the
next unconsumed character (if any) is neither, and the third gives the
scanner's step on such an input. -/
theorem C4_number_maximal_munch (fuel line : Nat) (c : Char) (rest : List Char)
    (h : is_digit c = true) :
    (∀ ch ∈ rest.takeWhile numberChar, numberChar ch = true) ∧
    (∀ ch ∈ (rest.dropWhile numberChar).head?, numberChar ch = false) ∧
    scanAux (fuel + 1) (c :: rest) line =
      (match parseFloatLexeme (c :: rest.takeWhile numberChar) with
       | some q => (Token.number q :: ·) <$> scanAux fuel (rest.dropWhile numberChar) line
       | none => .error "Failed to parse float") := by
  refine ⟨fun ch hch => List.mem_takeWhile_imp hch, ?_, ?_⟩
  · intro ch hch
    have := List.head?_dropWhile_not numberChar rest
    simp only [Option.mem_def] at hch
    rw [hch] at this
    simpa using this
  · have hmem := mem_digit_chars_of_is_digit c h
    simp only [List.mem_cons, List.not_mem_nil, or_false] at hmem
    rcases hmem with rfl | rfl | rfl | rfl | rfl | rfl | rfl | rfl | rfl | rfl <;>
      · simp [scanAux]
        intro hh
        simp [is_digit] at hh

/-- Witness for C4 at the digit `5` followed by `6`. -/
theorem C4_witness :
    scanAux 2 ['5', '6'] 1 = .ok [Token.number 56] :=
  ((C4_number_maximal_munch 1 1 '5' ['6'] rfl).2.2).trans (by with_unfolding_all rfl)

/-- Claim C8: a lexed string token's payload retains the opening and closing
quote characters of the source slice (first conjunct: scanning a quote, a
quote-free content and the closing quote produces the payload
`'"' :: content ++ ['"']` and continues after the closing quote, with the
line counter advanced by the newlines inside), the parser's
literal-construction strips exactly one character from each end (second
conjunct), and the two compose so that the runtime String value is exactly
the source text between the quotes (third conjunct). -/
theorem C8_string_literal_round_trip :
    (∀ (fuel line : Nat) (content rest : List Char), '"' ∉ content →
      scanAux (fuel + 1) ('"' :: (content ++ '"' :: rest)) line =
        (Token.string ('"' :: content ++ ['"']) :: ·) <$>
          scanAux fuel rest (line + content.count '\n')) ∧
    (∀ (fuel : Nat) (cs : List Char) (toks : List Token),
      Parser.primary (fuel + 1) (.string cs :: toks) =
        .ok (.literal (.string ((cs.drop 1).dropLast.asString)), toks)) ∧
    (∀ content : List Char,
      ((('"' :: content ++ ['"']).drop 1).dropLast).asString = content.asString) := by
  refine ⟨?_, fun fuel cs toks => rfl, fun content => by simp⟩
  intro fuel line content rest h
  have hall : ∀ a ∈ content, (a != '"') = true := by
    intro a ha
    simp only [bne_iff_ne, ne_eq]
    intro e
    exact h (e ▸ ha)
  have htake : (content ++ '"' :: rest).takeWhile (· != '"') = content := by
    rw [List.takeWhile_append_of_pos hall]
    simp
  have hdrop : (content ++ '"' :: rest).dropWhile (· != '"') = '"' :: rest := by
    rw [List.dropWhile_append_of_pos hall]
    simp
  simp [scanAux, htake, hdrop]

/-- Witness for C8 at the one-character content `a`: the token payload is
`"a"` with both quotes, and stripping recovers the content. -/
theorem C8_witness :
    scanAux 2 ['"', 'a', '"'] 1 = .ok [Token.string ['"', 'a', '"']] ∧
    Parser.primary 2 [Token.string ['"', 'a', '"']] =
      .ok (.literal (.string "a"), []) :=
  ⟨((C8_string_literal_round_trip.1 1 1 ['a'] [] (by decide)).trans
      (by with_unfolding_all rfl)),
   ((C8_string_literal_round_trip.2.1 1 ['"', 'a', '"'] []).trans
      (by with_unfolding_all rfl))⟩

end Interp
